import Mathlib

/-!
Shallow embedding of the TALD UNIA DSP kernel headers.

Source files:
* src/src/macos/TALDUnia/Audio/DSP/DSPKernel.hpp — aligned allocation helpers
  (alignedMalloc / alignedFree), the parameter-validating DSPKernel
  constructor, and the isBufferAligned check.
* src/src/ios/TALDUnia/Audio/DSP/DSPKernel.hpp — the abstract DSPKernel base
  class with its default constructor and setBypassed.

Machine memory is modelled abstractly: an Allocator oracle decides, per
allocation call, whether the underlying system allocator (posix_memalign,
operator new) succeeds and which base address it returns.  Honesty of an
oracle (returned addresses respect the requested alignment) is an explicit
hypothesis where a claim needs it.  Exceptions in the C++ source are
modelled with Except; a thrown constructor is an error value, and the list
of heap blocks still allocated when control leaves the constructor is
returned alongside, so leak claims are statable.
-/

/-- Global constant from the macOS header: maximum channel count. -/
def MAX_CHANNELS : Int := 8

/-- Global constant from the macOS header: SIMD vector width. -/
def SIMD_VECTOR_SIZE : Int := 8

/-- Global constant from the macOS header: DSP memory alignment in bytes. -/
def DSP_ALIGNMENT : Nat := 16

/-- Global constant from the macOS header: cache line size in bytes. -/
def CACHE_LINE_SIZE : Nat := 64

/-- Global constant from the macOS header: maximum buffer size in frames. -/
def MAX_BUFFER_SIZE : Nat := 8192

/-- Global constant from the macOS header: minimum valid sample rate (Hz). -/
def MIN_SAMPLE_RATE : ℚ := 44100

/-- Global constant from the macOS header: maximum valid sample rate (Hz). -/
def MAX_SAMPLE_RATE : ℚ := 384000

/-- Bytes per float, sizeof(float) on the target platform. -/
def SIZEOF_FLOAT : Nat := 4

namespace tald.dsp

/-- Oracle for the underlying system allocator.  alloc takes a call index
(so distinct allocation calls in one run may return distinct addresses or
fail independently), the requested byte size and the alignment actually
passed down, and yields the base address of the block or none on failure.
garbage gives the uninitialized byte at (base address, offset), modelling
that a fresh block from the system allocator holds arbitrary bytes. -/
structure Allocator where
  alloc : Nat → Nat → Nat → Option Nat
  garbage : Nat → Nat → Nat

/-- An allocator is honest when every address it hands out satisfies the
alignment it was asked for.  posix_memalign guarantees this. -/
def Allocator.Honest (A : Allocator) : Prop :=
  ∀ idx size align addr, A.alloc idx size align = some addr → addr % align = 0

/-- A heap block: its base address and its byte contents. -/
structure Block where
  addr : Nat
  bytes : List Nat
  deriving DecidableEq

/-- Model of memset(ptr, value, size) over the whole block contents. -/
def memset (bytes : List Nat) (value : Nat) : List Nat :=
  bytes.map (fun _ => value)

/-- Embedding of alignedMalloc from the macOS header.  Mirrors the source:
reject when alignment &&& (alignment - 1) is nonzero (the bit trick the
source uses for the power-of-two test; note that alignment 0 passes it,
in C because 0 & (0-1) = 0 on size_t, here because 0 - 1 = 0 on Nat);
raise an alignment below DSP_ALIGNMENT to DSP_ALIGNMENT; call the
underlying allocator; zero the block with memset on success.  The call
index idx distinguishes successive calls to the underlying allocator. -/
def alignedMalloc (A : Allocator) (idx : Nat) (size alignment : Nat) : Option Block :=
  if alignment &&& (alignment - 1) ≠ 0 then
    none
  else
    match A.alloc idx size (if alignment < DSP_ALIGNMENT then DSP_ALIGNMENT else alignment) with
    | none => none
    | some addr => some { addr := addr, bytes := memset ((List.range size).map (A.garbage addr)) 0 }

/-- Heap-level embedding of alignedFree from the macOS header: the heap is
the list of currently allocated base addresses; freeing a null pointer
(none) is the identity, freeing address p removes one block at p. -/
def alignedFreeHeap (heap : List Nat) (ptr : Option Nat) : List Nat :=
  match ptr with
  | none => heap
  | some p => heap.erase p

/-- Embedding of DSPKernel::isBufferAligned from the macOS header: the
address modulo DSP_ALIGNMENT is zero.  The source fixes the alignment to
DSP_ALIGNMENT; the check reads nothing but its argument. -/
def isBufferAligned (ptr : Nat) : Bool :=
  ptr % DSP_ALIGNMENT == 0

/-- The alignment predicate in the words of the spec: isAligned(pointer,
alignment) holds exactly when the address modulo the alignment is zero. -/
def isAlignedSpec (ptr alignment : Nat) : Prop :=
  ptr % alignment = 0

/-- Outcome of a thrown DSPKernel constructor: std::invalid_argument from
parameter validation, std::runtime_error from the checked aligned-buffer
allocation, or std::bad_alloc propagating out of std::vector::resize or
std::make_unique. -/
inductive CtorError where
  | invalidArgument
  | allocFailure
  | badAlloc
  deriving DecidableEq

/-- The member state of a fully constructed macOS DSPKernel, mirroring the
data members of the class.  Pointers are Option Nat addresses (none is
nullptr); the std::vector member is represented by the address of its
storage and its element count; the std::unique_ptr member by the address
of its array. -/
structure DSPKernelState where
  inputBuffer : Option Nat
  outputBuffer : Option Nat
  bufferSize : Nat
  numChannels : Int
  sampleRate : ℚ
  processingBufferAddr : Option Nat
  processingBufferLen : Nat
  isProcessing : Bool
  bypass : Bool
  fftSetup : Option Nat
  tempBuffer : Option Nat
  deriving DecidableEq

/-- Environment a single run of the macOS DSPKernel constructor executes
in: the posix_memalign oracle behind the two alignedMalloc calls, the
storage address operator new hands the std::vector on resize (none models
a std::bad_alloc throw), the result of vDSP_create_fftsetup (none is a
null setup), and the array address operator new hands std::make_unique
(none models a std::bad_alloc throw). -/
structure CtorEnv where
  A : Allocator
  vectorData : Option Nat
  fftSetupResult : Option Nat
  tempData : Option Nat

/-- Embedding of the macOS DSPKernel constructor.  Mirrors the source
line by line: validate sampleRate against [MIN_SAMPLE_RATE,
MAX_SAMPLE_RATE] and channels against (0, MAX_CHANNELS], throwing
std::invalid_argument before anything is allocated; allocate the input
and output buffers with alignedMalloc at CACHE_LINE_SIZE; if either is
null, alignedFree both and throw std::runtime_error; resize the
processing vector (a bad_alloc here unwinds without running ~DSPKernel,
so the two raw buffer pointers are not freed); create the FFT setup, its
result unchecked; allocate the temporary buffer with std::make_unique (a
bad_alloc here likewise skips ~DSPKernel: stack unwinding destroys the
vector member, freeing its storage, but the raw pointers and the FFT
setup remain allocated).  Returns the constructor outcome together with
the list of heap blocks still allocated when control leaves the
constructor: on success these are owned by the object, on a throw they
are leaked. -/
def mkDSPKernel (env : CtorEnv) (sampleRate : ℚ) (channels : Int) :
    Except CtorError DSPKernelState × List Nat :=
  if sampleRate < MIN_SAMPLE_RATE ∨ MAX_SAMPLE_RATE < sampleRate then
    (.error .invalidArgument, [])
  else if channels ≤ 0 ∨ MAX_CHANNELS < channels then
    (.error .invalidArgument, [])
  else
    let sizeBytes := MAX_BUFFER_SIZE * channels.toNat * SIZEOF_FLOAT
    let ibuf := alignedMalloc env.A 0 sizeBytes CACHE_LINE_SIZE
    let obuf := alignedMalloc env.A 1 sizeBytes CACHE_LINE_SIZE
    match ibuf, obuf with
    | some ib, some ob =>
      let live := [ib.addr, ob.addr]
      match env.vectorData with
      | none => (.error .badAlloc, live)
      | some vaddr =>
        let live := live ++ [vaddr]
        let fft := env.fftSetupResult
        let live := live ++ fft.toList
        match env.tempData with
        | none => (.error .badAlloc, alignedFreeHeap live (some vaddr))
        | some taddr =>
          (.ok { inputBuffer := some ib.addr
                 outputBuffer := some ob.addr
                 bufferSize := 0
                 numChannels := channels
                 sampleRate := sampleRate
                 processingBufferAddr := some vaddr
                 processingBufferLen := MAX_BUFFER_SIZE * channels.toNat
                 isProcessing := false
                 bypass := false
                 fftSetup := fft
                 tempBuffer := some taddr }, live ++ [taddr])
    | iOpt, oOpt =>
      let live := iOpt.toList.map Block.addr ++ oOpt.toList.map Block.addr
      let live := alignedFreeHeap live (iOpt.map Block.addr)
      let live := alignedFreeHeap live (oOpt.map Block.addr)
      (.error .allocFailure, live)

end tald.dsp

/-- Constant from the iOS header: maximum frames per processing slice. -/
def kMaxFramesPerSlice : Nat := 4096

/-- Constant from the iOS header: maximum supported audio channels. -/
def kMaxChannels : Int := 8

/-- Constant from the iOS header: SIMD alignment requirement in bytes. -/
def kSIMDAlignmentBytes : Nat := 16

/-- Constant from the iOS header: default sample rate for initialization. -/
def kDefaultSampleRate : ℚ := 48000

/-- Constant from the iOS header: minimum buffer size for processing. -/
def kMinBufferSize : Nat := 64

namespace ios

/-- The member state of the iOS abstract DSPKernel, mirroring its data
members.  The two raw float pointers are Option Nat addresses (none is
nullptr); the two std::atomic bools are plain Bool here, the embedding
being sequential. -/
structure DSPKernel where
  processingBuffer : Option Nat
  maxFrames : Nat
  isInitialized : Bool
  sampleRate : ℚ
  channelCount : Int
  isBypassed : Bool
  isProcessing : Bool
  simdAlignedBuffer : Option Nat
  bufferCapacity : Nat
  deriving DecidableEq

/-- Embedding of the iOS DSPKernel default constructor: the member
initializer list, field for field. -/
def mkDefaultDSPKernel : DSPKernel :=
  { processingBuffer := none
    maxFrames := 0
    isInitialized := false
    sampleRate := kDefaultSampleRate
    channelCount := 0
    isBypassed := false
    isProcessing := false
    simdAlignedBuffer := none
    bufferCapacity := 0 }

/-- Embedding of DSPKernel::setBypassed from the iOS header: an atomic
store of shouldBypass into the isBypassed member and nothing else. -/
def DSPKernel.setBypassed (k : DSPKernel) (shouldBypass : Bool) : DSPKernel :=
  { k with isBypassed := shouldBypass }

end ios

namespace tald.dsp

/-- Modelled from the platform: the strictest alignment operator new is
guaranteed to honour without an explicit alignment request
(__STDCPP_DEFAULT_NEW_ALIGNMENT__); 16 bytes on the Apple targets this
code builds for.  std::vector's default allocator and std::make_unique
obtain memory through plain operator new, so this is all the alignment
those blocks are guaranteed. -/
def DEFAULT_NEW_ALIGNMENT : Nat := 16

/-- Concrete honest allocator used for witnesses: the call with index idx
and alignment al is served at base address (idx + 1) * al, a multiple of
the requested alignment, and fresh memory reads as the garbage byte 37. -/
def A1 : Allocator :=
  { alloc := fun idx _ align => if align = 0 then none else some ((idx + 1) * align)
    garbage := fun _ _ => 37 }

/-- Concrete allocator modelling an exhausted system heap: every request
fails. -/
def Afail : Allocator :=
  { alloc := fun _ _ _ => none
    garbage := fun _ _ => 0 }

/-- Constructor environment in which the two aligned buffer allocations
succeed (at the honest addresses 64 and 128) but std::vector::resize
throws std::bad_alloc. -/
def envResizeFail : CtorEnv :=
  { A := A1, vectorData := none, fftSetupResult := some 4096, tempData := some 4160 }

/-- Constructor environment in which every allocation succeeds and
operator new serves the std::vector storage at address 16 and the
std::make_unique array at address 32 — both legal for operator new
(multiples of DEFAULT_NEW_ALIGNMENT) and neither a multiple of
CACHE_LINE_SIZE. -/
def envMisaligned : CtorEnv :=
  { A := A1, vectorData := some 16, fftSetupResult := some 4096, tempData := some 32 }

/-- The witness allocator A1 is honest: each served address is a multiple
of the requested alignment. -/
theorem A1_honest : A1.Honest := by
  intro idx size align addr h
  simp only [A1] at h
  by_cases h0 : align = 0
  · rw [if_pos h0] at h
    cases h
  · rw [if_neg h0] at h
    injection h with h
    rw [← h]
    exact Nat.mul_mod_left _ _

/-- A nonzero number that passes the bit trick n &&& (n - 1) = 0 is the
power of two 2 ^ log2 n: if n were strictly between consecutive powers,
bit (log2 n) would be set in both n and n - 1. -/
theorem eq_two_pow_of_and_pred_eq_zero {n : Nat} (hn : n ≠ 0) (h : n &&& (n - 1) = 0) :
    n = 2 ^ Nat.log 2 n := by
  have h1 : 2 ^ Nat.log 2 n ≤ n := Nat.pow_log_le_self 2 hn
  have h2 : n < 2 ^ (Nat.log 2 n + 1) := Nat.lt_pow_succ_log_self (by norm_num) n
  by_contra hne
  have hgt : 2 ^ Nat.log 2 n < n := lt_of_le_of_ne h1 fun e => hne e.symm
  have hpow : 2 ^ (Nat.log 2 n + 1) = 2 * 2 ^ Nat.log 2 n := by ring
  have hbn : n.testBit (Nat.log 2 n) = true := by
    rw [Nat.testBit_to_div_mod]
    have hdiv : n / 2 ^ Nat.log 2 n = 1 := by
      apply Nat.div_eq_of_lt_le <;> omega
    simp [hdiv]
  have hbn1 : (n - 1).testBit (Nat.log 2 n) = true := by
    rw [Nat.testBit_to_div_mod]
    have hdiv : (n - 1) / 2 ^ Nat.log 2 n = 1 := by
      apply Nat.div_eq_of_lt_le <;> omega
    simp [hdiv]
  have hz := congrArg (fun m => m.testBit (Nat.log 2 n)) h
  simp only [Nat.testBit_and, Nat.zero_testBit, hbn, hbn1, Bool.and_self] at hz
  cases hz

/-- For an honest allocator, a block served by alignedMalloc is aligned to
the alignment actually passed down: the requested one, raised to
DSP_ALIGNMENT when it was below it. -/
theorem alignedMalloc_addr_aligned {A : Allocator} (hA : A.Honest)
    {idx size alignment : Nat} {b : Block}
    (h : alignedMalloc A idx size alignment = some b) :
    b.addr % (if alignment < DSP_ALIGNMENT then DSP_ALIGNMENT else alignment) = 0 := by
  unfold alignedMalloc at h
  by_cases hg : alignment &&& (alignment - 1) ≠ 0
  · rw [if_pos hg] at h
    cases h
  · rw [if_neg hg] at h
    cases hA2 : A.alloc idx size (if alignment < DSP_ALIGNMENT then DSP_ALIGNMENT else alignment) with
    | none => rw [hA2] at h; cases h
    | some addr =>
      rw [hA2] at h
      injection h with h
      rw [← h]
      exact hA idx size _ addr hA2

/-- Six is not a power of two. -/
theorem six_not_power_of_two : ¬ Nat.isPowerOfTwo 6 := by
  rintro ⟨k, hk⟩
  have hk3 : k < 3 := by
    by_contra hge
    have h8 : 2 ^ 3 ≤ 2 ^ k := Nat.pow_le_pow_right (by norm_num) (Nat.le_of_not_lt hge)
    rw [← hk] at h8
    norm_num at h8
  interval_cases k <;> norm_num at hk

end tald.dsp

namespace tald.dsp

/-- C1: for every (sampleRate, channelCount) pair outside the valid bounds
(sample rate below MIN_SAMPLE_RATE or above MAX_SAMPLE_RATE, or channel
count non-positive or above MAX_CHANNELS), the DSPKernel constructor
fails with the configuration error std::invalid_argument, for every
allocator environment, and the list of blocks allocated when control
leaves the constructor is empty: the values are rejected before any
buffer is allocated and no partial state is retained. -/
theorem C1_config_rejected_before_allocation (env : CtorEnv) (sr : ℚ) (ch : Int)
    (h : sr < MIN_SAMPLE_RATE ∨ MAX_SAMPLE_RATE < sr ∨ ch ≤ 0 ∨ MAX_CHANNELS < ch) :
    mkDSPKernel env sr ch = (.error .invalidArgument, []) := by
  unfold mkDSPKernel
  by_cases hs : sr < MIN_SAMPLE_RATE ∨ MAX_SAMPLE_RATE < sr
  · rw [if_pos hs]
  · rw [if_neg hs]
    have hc : ch ≤ 0 ∨ MAX_CHANNELS < ch := by
      rcases h with h | h | h | h
      · exact absurd (Or.inl h) hs
      · exact absurd (Or.inr h) hs
      · exact Or.inl h
      · exact Or.inr h
    rw [if_pos hc]

/-- C1 witness: sample rate 1000 Hz is below the minimum, and the
constructor indeed reports invalid_argument with nothing allocated. -/
theorem C1_witness :
    ((1000 : ℚ) < MIN_SAMPLE_RATE ∨ MAX_SAMPLE_RATE < (1000 : ℚ) ∨ (2 : Int) ≤ 0 ∨ MAX_CHANNELS < (2 : Int)) ∧
    mkDSPKernel envResizeFail 1000 2 = (.error .invalidArgument, []) :=
  ⟨Or.inl (by norm_num [MIN_SAMPLE_RATE]),
   C1_config_rejected_before_allocation envResizeFail 1000 2 (Or.inl (by norm_num [MIN_SAMPLE_RATE]))⟩

/-- C2 is false of the code: at the valid configuration (48000 Hz, 2
channels), with every underlying allocation succeeding and the system
allocator honest, construction succeeds and the input and output buffers
are cache-line aligned, but the processing buffer (std::vector storage)
and the temporary buffer (std::make_unique array) are only obtained from
plain operator new: an address such as 16 (respectively 32), legal for
operator new since it is a multiple of DEFAULT_NEW_ALIGNMENT, is not a
multiple of CACHE_LINE_SIZE, so those buffers are not aligned to the
mandated boundary. -/
theorem C2_processing_and_temp_buffers_miss_boundary :
    (mkDSPKernel envMisaligned 48000 2).1.map DSPKernelState.inputBuffer = .ok (some 64) ∧
    (mkDSPKernel envMisaligned 48000 2).1.map DSPKernelState.outputBuffer = .ok (some 128) ∧
    (mkDSPKernel envMisaligned 48000 2).1.map DSPKernelState.processingBufferAddr = .ok (some 16) ∧
    (mkDSPKernel envMisaligned 48000 2).1.map DSPKernelState.tempBuffer = .ok (some 32) ∧
    64 % CACHE_LINE_SIZE = 0 ∧
    128 % CACHE_LINE_SIZE = 0 ∧
    16 % DEFAULT_NEW_ALIGNMENT = 0 ∧
    32 % DEFAULT_NEW_ALIGNMENT = 0 ∧
    16 % CACHE_LINE_SIZE ≠ 0 ∧
    32 % CACHE_LINE_SIZE ≠ 0 :=
  ⟨rfl, rfl, rfl, rfl, by decide, by decide, by decide, by decide, by decide, by decide⟩

/-- C3 is false of the code: at the valid configuration (48000 Hz, 2
channels), when the two aligned buffer allocations succeed (at addresses
64 and 128) and std::vector::resize then throws std::bad_alloc, the
constructor reports the failure but the two aligned buffers are still
allocated when control leaves it — stack unwinding of a partially
constructed object does not run ~DSPKernel, so the raw inputBuffer and
outputBuffer pointers leak instead of being rolled back. -/
theorem C3_resize_failure_leaks_buffers :
    (mkDSPKernel envResizeFail 48000 2).1 = .error .badAlloc ∧
    (mkDSPKernel envResizeFail 48000 2).2 = [64, 128] ∧
    ([64, 128] : List Nat) ≠ [] :=
  ⟨rfl, rfl, by decide⟩

/-- C4 counterexample: alignment 2 is a power of two weaker than the
cache-line size, yet alignedMalloc raises it only to DSP_ALIGNMENT = 16,
not to CACHE_LINE_SIZE = 64: the underlying allocator is asked for
alignment 16, honours exactly that with address 16, and the returned
block's address is not cache-line aligned. -/
theorem C4_counterexample :
    (2 : Nat) = 2 ^ 1 ∧
    (2 : Nat) < CACHE_LINE_SIZE ∧
    A1.alloc 0 4 16 = some 16 ∧
    (alignedMalloc A1 0 4 2).map Block.addr = some 16 ∧
    16 % DSP_ALIGNMENT = 0 ∧
    16 % CACHE_LINE_SIZE ≠ 0 :=
  ⟨rfl, by decide, rfl, rfl, by decide, by decide⟩

/-- C4 as amended: for every power-of-two alignment argument weaker than
DSP_ALIGNMENT (16 bytes), alignedMalloc silently raises the alignment to
that 16-byte minimum — the call behaves exactly as a call with alignment
DSP_ALIGNMENT — so for an honest allocator the returned block's address
is aligned to at least DSP_ALIGNMENT (not to the cache-line size the
original claim stated). -/
theorem C4_amended_raised_to_dsp_alignment (A : Allocator) (idx size a : Nat)
    (hA : A.Honest) (hpow : Nat.isPowerOfTwo a) (hlt : a < DSP_ALIGNMENT) :
    alignedMalloc A idx size a = alignedMalloc A idx size DSP_ALIGNMENT ∧
    ∀ b, alignedMalloc A idx size a = some b → b.addr % DSP_ALIGNMENT = 0 := by
  constructor
  · obtain ⟨k, rfl⟩ := hpow
    have hk : k < 4 := by
      by_contra hge
      have h16 : 2 ^ 4 ≤ 2 ^ k := Nat.pow_le_pow_right (by norm_num) (Nat.le_of_not_lt hge)
      have hd : DSP_ALIGNMENT = 16 := rfl
      omega
    interval_cases k <;> rfl
  · intro b hb
    have hal := alignedMalloc_addr_aligned hA hb
    rwa [if_pos hlt] at hal

/-- C4 witness: alignment 2 at the honest allocator A1 — the call equals
the DSP_ALIGNMENT call and the served address 16 is 16-byte aligned. -/
theorem C4_witness :
    alignedMalloc A1 0 4 2 = alignedMalloc A1 0 4 DSP_ALIGNMENT ∧
    ∀ b, alignedMalloc A1 0 4 2 = some b → b.addr % DSP_ALIGNMENT = 0 :=
  C4_amended_raised_to_dsp_alignment A1 0 4 2 A1_honest ⟨1, rfl⟩ (by decide)

/-- C5 counterexample: 0 is not a power of two, yet alignedMalloc does not
reject it — the bit trick 0 &&& (0 - 1) evaluates to 0, so alignment 0
slips through the power-of-two check, is raised to DSP_ALIGNMENT, and the
allocation succeeds. -/
theorem C5_counterexample :
    ¬ Nat.isPowerOfTwo 0 ∧
    alignedMalloc A1 0 8 0 = some { addr := 16, bytes := [0, 0, 0, 0, 0, 0, 0, 0] } := by
  constructor
  · rintro ⟨k, hk⟩
    have hp : 0 < 2 ^ k := Nat.pow_pos (by norm_num)
    omega
  · rfl

/-- C5 as amended: for every nonzero alignment argument that is not a
power of two, and whenever the underlying allocator cannot satisfy the
request, alignedMalloc returns none (the model of returning nullptr
without throwing); alignment zero, however, passes the bit-trick check
and is raised to the minimum instead of being rejected. -/
theorem C5_amended_reject_nonzero_nonpower (A : Allocator) (idx size a : Nat) :
    (a ≠ 0 → ¬ Nat.isPowerOfTwo a → alignedMalloc A idx size a = none) ∧
    ((∀ al, A.alloc idx size al = none) → alignedMalloc A idx size a = none) := by
  constructor
  · intro ha hpow
    have hg : a &&& (a - 1) ≠ 0 := by
      intro h0
      exact hpow ⟨Nat.log 2 a, eq_two_pow_of_and_pred_eq_zero ha h0⟩
    unfold alignedMalloc
    rw [if_pos hg]
  · intro hfail
    unfold alignedMalloc
    by_cases hg : a &&& (a - 1) ≠ 0
    · rw [if_pos hg]
    · rw [if_neg hg, hfail]

/-- C5 witness: alignment 6 (nonzero, not a power of two) is rejected,
and under an exhausted system heap the request for alignment 16 fails
with none rather than a throw. -/
theorem C5_witness :
    alignedMalloc A1 0 8 6 = none ∧ alignedMalloc Afail 0 8 16 = none :=
  ⟨(C5_amended_reject_nonzero_nonpower A1 0 8 6).1 (by decide) six_not_power_of_two,
   (C5_amended_reject_nonzero_nonpower Afail 0 8 16).2 (fun _ => rfl)⟩

/-- C6: every block alignedMalloc returns is zero-initialized — its
contents have exactly the requested length and every byte within that
length reads as zero, whatever garbage the underlying allocator left in
the fresh memory. -/
theorem C6_returned_block_zero_initialized (A : Allocator) (idx size alignment : Nat)
    (b : Block) (h : alignedMalloc A idx size alignment = some b) :
    b.bytes.length = size ∧ ∀ i, i < size → b.bytes.getD i 1 = 0 := by
  unfold alignedMalloc at h
  by_cases hg : alignment &&& (alignment - 1) ≠ 0
  · rw [if_pos hg] at h
    cases h
  · rw [if_neg hg] at h
    cases hA2 : A.alloc idx size (if alignment < DSP_ALIGNMENT then DSP_ALIGNMENT else alignment) with
    | none => rw [hA2] at h; cases h
    | some addr =>
      rw [hA2] at h
      injection h with h
      rw [← h]
      constructor
      · simp [memset]
      · intro i hi
        simp [memset, List.getD_eq_getElem?_getD, List.getElem?_map, List.getElem?_range, hi]

/-- C6 witness: a three-byte block served at address 16 comes back as
[0, 0, 0]. -/
theorem C6_witness :
    ([0, 0, 0] : List Nat).length = 3 ∧ ∀ i, i < 3 → ([0, 0, 0] : List Nat).getD i 1 = 0 :=
  C6_returned_block_zero_initialized A1 0 3 16 { addr := 16, bytes := [0, 0, 0] } rfl

end tald.dsp

namespace tald.dsp

/-- C8: the buffer-alignment check is a pure function of the address —
the embedding has no state to touch — and for every pointer it returns
true exactly when the address modulo the alignment the source mandates
(DSP_ALIGNMENT, the only alignment the one-argument source function
checks) is zero, i.e. exactly when the spec predicate isAligned holds at
that alignment. -/
theorem C8_isBufferAligned_iff_mod_zero (ptr : Nat) :
    isBufferAligned ptr = true ↔ isAlignedSpec ptr DSP_ALIGNMENT := by
  simp [isBufferAligned, isAlignedSpec]

/-- C9: freeing a null pointer leaves the heap exactly as it was, and
freeing a block previously allocated at address p releases exactly that
block: one block at p disappears and the blocks at every other address
are untouched. -/
theorem C9_free_null_noop_free_exact (heap : List Nat) (p : Nat) (hp : p ∈ heap) :
    alignedFreeHeap heap none = heap ∧
    (alignedFreeHeap heap (some p)).count p + 1 = heap.count p ∧
    ∀ q, q ≠ p → (alignedFreeHeap heap (some p)).count q = heap.count q := by
  refine ⟨rfl, ?_, ?_⟩
  · have h1 : (heap.erase p).count p = heap.count p - 1 := List.count_erase_self p heap
    have h2 : 0 < heap.count p := List.count_pos_iff.mpr hp
    simp only [alignedFreeHeap]
    omega
  · intro q hq
    simp only [alignedFreeHeap]
    exact List.count_erase_of_ne hq heap

/-- C9 witness: on the heap [5, 7], freeing null changes nothing and
freeing 5 removes exactly the block at 5. -/
theorem C9_witness :
    alignedFreeHeap [5, 7] none = [5, 7] ∧
    (alignedFreeHeap [5, 7] (some 5)).count 5 + 1 = ([5, 7] : List Nat).count 5 ∧
    ∀ q, q ≠ 5 → (alignedFreeHeap [5, 7] (some 5)).count q = ([5, 7] : List Nat).count q :=
  C9_free_null_noop_free_exact [5, 7] 5 (by decide)

end tald.dsp

namespace ios

/-- C7: setBypassed b sets the bypass flag to b and leaves every other
member of the kernel state — buffer pointers, configuration, the
initialization and processing flags, capacities — unchanged, for every
kernel state and every boolean. -/
theorem C7_setBypassed_flag_flip_frame (k : DSPKernel) (b : Bool) :
    (k.setBypassed b).isBypassed = b ∧
    (k.setBypassed b).processingBuffer = k.processingBuffer ∧
    (k.setBypassed b).maxFrames = k.maxFrames ∧
    (k.setBypassed b).isInitialized = k.isInitialized ∧
    (k.setBypassed b).sampleRate = k.sampleRate ∧
    (k.setBypassed b).channelCount = k.channelCount ∧
    (k.setBypassed b).isProcessing = k.isProcessing ∧
    (k.setBypassed b).simdAlignedBuffer = k.simdAlignedBuffer ∧
    (k.setBypassed b).bufferCapacity = k.bufferCapacity :=
  ⟨rfl, rfl, rfl, rfl, rfl, rfl, rfl, rfl, rfl⟩

/-- C10: a freshly default-constructed kernel is uninitialized with
bypass off and processing-in-progress false, both buffer pointers null,
buffer capacity, maximum frames and channel count zero, and the sample
rate at the default of 48000 Hz. -/
theorem C10_default_constructed_state :
    mkDefaultDSPKernel.isInitialized = false ∧
    mkDefaultDSPKernel.isBypassed = false ∧
    mkDefaultDSPKernel.isProcessing = false ∧
    mkDefaultDSPKernel.processingBuffer = none ∧
    mkDefaultDSPKernel.simdAlignedBuffer = none ∧
    mkDefaultDSPKernel.bufferCapacity = 0 ∧
    mkDefaultDSPKernel.maxFrames = 0 ∧
    mkDefaultDSPKernel.channelCount = 0 ∧
    mkDefaultDSPKernel.sampleRate = kDefaultSampleRate ∧
    kDefaultSampleRate = 48000 :=
  ⟨rfl, rfl, rfl, rfl, rfl, rfl, rfl, rfl, rfl, rfl⟩

end ios
